import Mathlib

/-!
Shallow embedding of `src/jira-automation.py` (jira/snyk reconciliation
script) and proofs about its reconciliation core.

Conventions of the embedding:
* Python strings are Lean `String`s; character-level Python operations
  (slicing, `partition`, `startswith`, `removesuffix`) are modelled on
  `String.data` (the list of characters), matching Python's
  character-based semantics.
* The external collaborators (the `re` module, the JIRA search/create
  endpoints, the clock) are passed in as explicit function parameters.
* Side effects (logging, network calls) are reified as trace values.
-/

/-- Models Python `s[:-n]` (drop the last `n` characters). -/
def pyDropLast (s : String) (n : Nat) : String :=
  String.mk (s.data.take (s.data.length - n))

/-- Models Python `s.startswith(p)`. -/
def pyStartsWith (s p : String) : Bool :=
  p.data.isPrefixOf s.data

/-- Models Python `s.partition(":")[0]`: the part before the first colon
(the whole string when there is no colon). -/
def pyPartitionBeforeColon (s : String) : String :=
  String.mk (s.data.takeWhile (fun c => c != ':'))

/-- Models Python `s.partition(":")[2]`: the part after the first colon
(empty when there is no colon). -/
def pyPartitionAfterColon (s : String) : String :=
  String.mk ((s.data.dropWhile (fun c => c != ':')).drop 1)

/-- Models Python `s.removesuffix(suf)`. -/
def pyRemoveSuffix (s suf : String) : String :=
  if suf.data.isSuffixOf s.data
  then String.mk (s.data.take (s.data.length - suf.data.length))
  else s

/-- Python repr of a list of strings, as interpolated by an f-string,
e.g. `['1.2.3', '2.0.0']`.  The single-quote character is `Char.ofNat 39`. -/
def pyListRepr (xs : List String) : String :=
  let q := String.mk [Char.ofNat 39]
  "[" ++ String.intercalate ", " (xs.map (fun x => q ++ x ++ q)) ++ "]"

/-- `VULNERABILITY_SEVERITIES` (src/jira-automation.py line 13).
Defined in the source and never referenced again. -/
def VULNERABILITY_SEVERITIES : List String := ["critical", "high"]

/-- The `issueData` sub-record of a raw snyk vulnerability, as accessed by
`list_snyk_vulnerabilities` (fields `title`, `url`, `severity`,
`cvssScore`, `identifiers`). -/
structure IssueData where
  title : String
  url : String
  severity : String
  cvssScore : Float
  identifiers : List (String × List String)

/-- The `fixInfo` sub-record of a raw snyk vulnerability. -/
structure FixInfo where
  fixedIn : List String

/-- A raw snyk vulnerability record, with exactly the fields read by
`list_snyk_vulnerabilities` (lines 396-411). -/
structure RawVulnerability where
  id : String
  issueData : IssueData
  pkgName : String
  pkgVersions : List String
  fixInfo : FixInfo

/-- The `VulnerabilityData` dataclass (lines 167-213); field names drop the
Python name-mangling underscores. -/
structure VulnerabilityData where
  id : String
  jira_snyk_id : String
  title : String
  url : String
  project_branch : String
  package_name : String
  package_version : List String
  fixed_in : List String
  project_name : String
  file_path : String
  component_list : List String
  severity : String
  cvss_score : Float
  identifiers : List (String × List String)

def VulnerabilityData.get_id (v : VulnerabilityData) : String := v.id

def VulnerabilityData.get_jira_snyk_id (v : VulnerabilityData) : String := v.jira_snyk_id

def VulnerabilityData.get_title (v : VulnerabilityData) : String := v.title

def VulnerabilityData.get_url (v : VulnerabilityData) : String := v.url

def VulnerabilityData.get_package_name (v : VulnerabilityData) : String := v.package_name

def VulnerabilityData.get_identifiers (v : VulnerabilityData) : List (String × List String) := v.identifiers

def VulnerabilityData.get_cvss_score (v : VulnerabilityData) : Float := v.cvss_score

def VulnerabilityData.get_package_version (v : VulnerabilityData) : List String := v.package_version

def VulnerabilityData.get_fixed_in (v : VulnerabilityData) : List String := v.fixed_in

def VulnerabilityData.get_project_name (v : VulnerabilityData) : String := v.project_name

def VulnerabilityData.get_file_path (v : VulnerabilityData) : String := v.file_path

def VulnerabilityData.get_component_list (v : VulnerabilityData) : List String := v.component_list

def VulnerabilityData.get_severity (v : VulnerabilityData) : String := v.severity

def VulnerabilityData.get_project_branch (v : VulnerabilityData) : String := v.project_branch

/-- A jira issue as consumed by `compare_jira_snyk`: only
`issue.fields.labels` is ever read. -/
structure JiraIssue where
  labels : List String

/-- The python set `jira_issue_labels` built by `compare_jira_snyk`
(lines 424-428): every label of every issue that starts with the
configured label prefix.  Set membership coincides with membership in
this list. -/
def jira_issue_labels (jira_issues : List JiraIssue) (jira_label_pfx : String) : List String :=
  jira_issues.flatMap (fun issue =>
    issue.labels.filter (fun label => pyStartsWith label jira_label_pfx))

/-- `compare_jira_snyk` (lines 420-430): keep exactly the vulnerabilities
whose `jira_snyk_id` is not among the collected labels. -/
def compare_jira_snyk (vulnerabilities : List VulnerabilityData)
    (jira_issues : List JiraIssue) (jira_label_pfx : String) : List VulnerabilityData :=
  vulnerabilities.filter (fun v =>
    !((jira_issue_labels jira_issues jira_label_pfx).contains v.get_jira_snyk_id))

lemma mem_jira_issue_labels {a : String} {ts : List JiraIssue} {pfx : String} :
    a ∈ jira_issue_labels ts pfx ↔
      ∃ issue ∈ ts, a ∈ issue.labels ∧ pyStartsWith a pfx = true := by
  simp [jira_issue_labels, List.mem_flatMap, List.mem_filter]

lemma contains_iff_mem {a : String} {l : List String} :
    l.contains a = true ↔ a ∈ l := by
  simp [List.contains, List.elem_iff]

lemma compare_jira_snyk_keep_iff {vs : List VulnerabilityData}
    {ts : List JiraIssue} {pfx : String} {v : VulnerabilityData} :
    v ∈ compare_jira_snyk vs ts pfx ↔
      v ∈ vs ∧ v.get_jira_snyk_id ∉ jira_issue_labels ts pfx := by
  simp [compare_jira_snyk, List.mem_filter, contains_iff_mem]

/-- C1: set-difference correctness of the reconciler.  If the labels
collected from the tracked issues cover each of the first `k` findings
and none of the remaining findings (with `k < n`), then
`compare_jira_snyk` returns exactly the findings after the first `k`;
and in general a finding is kept if and only if it occurs in the input
and its tracking identity is not among the collected labels. -/
theorem compare_jira_snyk_set_difference
    (vs : List VulnerabilityData) (ts : List JiraIssue) (pfx : String) (k : Nat)
    (hk : k < vs.length)
    (hcov : ∀ v ∈ vs.take k, v.get_jira_snyk_id ∈ jira_issue_labels ts pfx)
    (hnew : ∀ v ∈ vs.drop k, v.get_jira_snyk_id ∉ jira_issue_labels ts pfx) :
    compare_jira_snyk vs ts pfx = vs.drop k ∧
      ∀ v, (v ∈ compare_jira_snyk vs ts pfx ↔
        v ∈ vs ∧ v.get_jira_snyk_id ∉ jira_issue_labels ts pfx) := by
  constructor
  · have hsplit : vs = vs.take k ++ vs.drop k := (List.take_append_drop k vs).symm
    unfold compare_jira_snyk
    rw [hsplit, List.filter_append]
    have h1 : (vs.take k).filter (fun v =>
        !((jira_issue_labels ts pfx).contains v.get_jira_snyk_id)) = [] := by
      rw [List.filter_eq_nil_iff]
      intro v hv
      simp [contains_iff_mem]
      exact hcov v hv
    have h2 : (vs.drop k).filter (fun v =>
        !((jira_issue_labels ts pfx).contains v.get_jira_snyk_id)) = vs.drop k := by
      rw [List.filter_eq_self]
      intro v hv
      simp [contains_iff_mem]
      exact hnew v hv
    rw [h1, h2, List.nil_append, ← hsplit]
  · intro v
    exact compare_jira_snyk_keep_iff

/-- C2: idempotence of reconciliation.  If every finding's tracking
identity is carried as a label (starting with the label prefix) by some
tracked issue, `compare_jira_snyk` returns the empty list. -/
theorem compare_jira_snyk_idempotent
    (vs : List VulnerabilityData) (ts : List JiraIssue) (pfx : String)
    (h : ∀ v ∈ vs, ∃ issue ∈ ts,
      v.get_jira_snyk_id ∈ issue.labels ∧ pyStartsWith v.get_jira_snyk_id pfx = true) :
    compare_jira_snyk vs ts pfx = [] := by
  unfold compare_jira_snyk
  rw [List.filter_eq_nil_iff]
  intro v hv
  simp [contains_iff_mem, mem_jira_issue_labels]
  exact h v hv

/-- C10: the reconciler's output is a subsequence of its input: it keeps
the original relative order and never duplicates or invents findings. -/
theorem compare_jira_snyk_sublist
    (vs : List VulnerabilityData) (ts : List JiraIssue) (pfx : String) :
    (compare_jira_snyk vs ts pfx).Sublist vs :=
  List.filter_sublist vs

/-- A sample finding used by concrete witnesses: identity `p:n:f:b:A`. -/
def vdA : VulnerabilityData :=
  { id := "A", jira_snyk_id := "p:n:f:b:A", title := "tA", url := "uA",
    project_branch := "b", package_name := "pkg", package_version := ["1.0"],
    fixed_in := ["1.1"], project_name := "n", file_path := "f",
    component_list := ["comp"], severity := "high", cvss_score := 7.5,
    identifiers := [("CVE", ["CVE-2024-0001"])] }

/-- A sample finding used by concrete witnesses: identity `p:n:f:b:B`. -/
def vdB : VulnerabilityData :=
  { id := "B", jira_snyk_id := "p:n:f:b:B", title := "tB", url := "uB",
    project_branch := "b", package_name := "pkg", package_version := ["2.0"],
    fixed_in := ["2.1"], project_name := "n", file_path := "f",
    component_list := ["comp"], severity := "critical", cvss_score := 9.8,
    identifiers := [] }

/-- A tracked issue carrying the label of `vdA` plus an unrelated label. -/
def issueA : JiraIssue := { labels := ["unrelated", "p:n:f:b:A"] }

/-- Witness for C1: with findings `[vdA, vdB]` and a tracked issue
labelled with `vdA`'s identity, the reconciler returns `[vdB]`. -/
theorem compare_jira_snyk_set_difference_witness :
    (1 < ([vdA, vdB] : List VulnerabilityData).length) ∧
      compare_jira_snyk [vdA, vdB] [issueA] "p:" = [vdA, vdB].drop 1 :=
  ⟨by decide,
    (compare_jira_snyk_set_difference [vdA, vdB] [issueA] "p:" 1
      (by decide) (by decide) (by decide)).1⟩

/-- A tracked issue carrying the labels of both `vdA` and `vdB`. -/
def issueAB : JiraIssue := { labels := ["p:n:f:b:A", "p:n:f:b:B"] }

/-- Witness for C2: when both findings are already labelled, the
reconciler returns the empty list. -/
theorem compare_jira_snyk_idempotent_witness :
    (∀ v ∈ ([vdA, vdB] : List VulnerabilityData), ∃ issue ∈ [issueAB],
      v.get_jira_snyk_id ∈ issue.labels ∧ pyStartsWith v.get_jira_snyk_id "p:" = true) ∧
      compare_jira_snyk [vdA, vdB] [issueAB] "p:" = [] :=
  ⟨by decide, compare_jira_snyk_idempotent [vdA, vdB] [issueAB] "p:" (by decide)⟩

/-- The configuration carried by the `JiraClient` class (lines 37-64);
the network handle itself is an external collaborator and is passed to
the individual operations as an explicit function. -/
structure JiraClient where
  jira_label_pfx : String
  jira_project_id : String
  jira_component_list : List String
  dry_run : Bool

def JiraClient.is_dry_run (c : JiraClient) : Bool := c.dry_run

def JiraClient.get_project_id (c : JiraClient) : String := c.jira_project_id

def JiraClient.get_component_list (c : JiraClient) : List String := c.jira_component_list

def JiraClient.get_jira_label_pfx (c : JiraClient) : String := c.jira_label_pfx

/-- The jira-snyk tracking identity built inline at line 396:
`prefix + project_name + ":" + file_name + ":" + project_branch + ":" + id`. -/
def build_jira_snyk_id (jira_label_pfx project_name file_name project_branch snyk_id : String) : String :=
  jira_label_pfx ++ project_name ++ ":" ++ file_name ++ ":" ++ project_branch ++ ":" ++ snyk_id

/-- The `VulnerabilityData` object built for one raw vulnerability inside
the loop of `list_snyk_vulnerabilities` (lines 396-411). -/
def mk_vulnerability_obj (vulnerability : RawVulnerability)
    (project_branch project_name file_name : String) (jira_client : JiraClient) : VulnerabilityData :=
  { id := vulnerability.id,
    jira_snyk_id := build_jira_snyk_id jira_client.get_jira_label_pfx
      project_name file_name project_branch vulnerability.id,
    title := vulnerability.issueData.title,
    url := vulnerability.issueData.url,
    project_branch := project_branch,
    package_name := vulnerability.pkgName,
    package_version := vulnerability.pkgVersions,
    fixed_in := vulnerability.fixInfo.fixedIn,
    project_name := project_name,
    file_path := file_name,
    component_list := jira_client.get_component_list,
    severity := vulnerability.issueData.severity,
    cvss_score := vulnerability.issueData.cvssScore,
    identifiers := vulnerability.issueData.identifiers }

/-- The query fragment appended for one vulnerability at line 414:
`' labels="<id>" OR'`. -/
def query_term (jira_snyk_id : String) : String :=
  " labels=\"" ++ jira_snyk_id ++ "\" OR"

/-- `list_snyk_vulnerabilities` (lines 387-417): one pass over the raw
vulnerabilities accumulating both the `VulnerabilityData` list and the
jira query string; afterwards the last two characters (the trailing
`OR`) are stripped and a closing parenthesis appended. -/
def list_snyk_vulnerabilities (vulnerabilities : List RawVulnerability)
    (project_branch project_name file_name : String)
    (jira_client : JiraClient) : List VulnerabilityData × String :=
  let acc := vulnerabilities.foldl
    (fun (acc : List VulnerabilityData × String) vulnerability =>
      (acc.1 ++ [mk_vulnerability_obj vulnerability project_branch project_name file_name jira_client],
       acc.2 ++ query_term (build_jira_snyk_id jira_client.get_jira_label_pfx
         project_name file_name project_branch vulnerability.id)))
    ([], "project=" ++ jira_client.get_project_id ++ " AND (")
  (acc.1, pyDropLast acc.2 2 ++ ")")

lemma str_ext {s t : String} (h : s.data = t.data) : s = t := by
  cases s
  cases t
  cases h
  rfl

lemma str_data_append (s t : String) : (s ++ t).data = s.data ++ t.data := by
  cases s
  cases t
  rfl

lemma pyDropLast_append (x y : String) : pyDropLast (x ++ y) y.data.length = x := by
  apply str_ext
  simp only [pyDropLast, str_data_append]
  rw [List.length_append, Nat.add_sub_cancel, List.take_left]

/-- Plain concatenation of a list of strings. -/
def strJoin : List String → String
  | [] => ""
  | s :: ss => s ++ strJoin ss

/-- The `foldl` of `list_snyk_vulnerabilities`, characterised: it maps
the raw records and concatenates the per-record query fragments. -/
lemma list_snyk_foldl_eq (vulnerabilities : List RawVulnerability)
    (project_branch project_name file_name : String) (jira_client : JiraClient)
    (acc : List VulnerabilityData × String) :
    vulnerabilities.foldl
      (fun (acc : List VulnerabilityData × String) vulnerability =>
        (acc.1 ++ [mk_vulnerability_obj vulnerability project_branch project_name file_name jira_client],
         acc.2 ++ query_term (build_jira_snyk_id jira_client.get_jira_label_pfx
           project_name file_name project_branch vulnerability.id)))
      acc =
    (acc.1 ++ vulnerabilities.map
        (fun v => mk_vulnerability_obj v project_branch project_name file_name jira_client),
     acc.2 ++ strJoin (vulnerabilities.map
        (fun v => query_term (build_jira_snyk_id jira_client.get_jira_label_pfx
          project_name file_name project_branch v.id)))) := by
  induction vulnerabilities generalizing acc with
  | nil =>
    simp [strJoin]
  | cons v vs ih =>
    rw [List.foldl_cons, ih]
    refine Prod.ext ?_ ?_
    · simp
    · apply str_ext
      simp [strJoin, str_data_append]

/-- Spec-side form of the body of the query: the quoted label terms
joined by `OR` (each term carries its own surrounding spaces). -/
def orJoin : List String → String
  | [] => ""
  | [t] => t
  | t :: ts => t ++ "OR" ++ orJoin ts

/-- Spec-side form of one quoted label term: `' labels="<id>" '`. -/
def spacedTerm (jira_snyk_id : String) : String :=
  " labels=\"" ++ jira_snyk_id ++ "\" "

lemma query_term_eq_spacedTerm (jira_snyk_id : String) :
    query_term jira_snyk_id = spacedTerm jira_snyk_id ++ "OR" := by
  apply str_ext
  simp [query_term, spacedTerm, str_data_append]

lemma pyDropLast_OR (x : String) : pyDropLast (x ++ "OR") 2 = x := by
  have h : ("OR" : String).data.length = 2 := by decide
  have h2 := pyDropLast_append x "OR"
  rw [h] at h2
  exact h2

lemma join_terms_eq_orJoin (t : String) (ts : List String) :
    strJoin ((t :: ts).map query_term) =
      orJoin ((t :: ts).map spacedTerm) ++ "OR" := by
  induction ts generalizing t with
  | nil =>
    show query_term t ++ "" = spacedTerm t ++ "OR"
    apply str_ext
    have h := congrArg String.data (query_term_eq_spacedTerm t)
    simp [str_data_append] at h ⊢
    exact h
  | cons u us ih =>
    show query_term t ++ strJoin ((u :: us).map query_term) =
      (spacedTerm t ++ "OR" ++ orJoin ((u :: us).map spacedTerm)) ++ "OR"
    rw [ih u, query_term_eq_spacedTerm]
    apply str_ext
    simp [str_data_append]

/-- C6 (amended): for a non-empty raw-vulnerability list, the built
query is exactly `project=<pid> AND (` followed by the `OR`-joined
terms `' labels="<identity>" '` (field name `labels`, one space after
the opening parenthesis and one before the closing one) and a closing
parenthesis, with no trailing `OR`. -/
theorem list_snyk_vulnerabilities_query_form
    (v : RawVulnerability) (vs : List RawVulnerability)
    (project_branch project_name file_name : String) (jira_client : JiraClient) :
    (list_snyk_vulnerabilities (v :: vs) project_branch project_name file_name jira_client).2 =
      "project=" ++ jira_client.get_project_id ++ " AND (" ++
        orJoin ((v :: vs).map (fun w => spacedTerm (build_jira_snyk_id
          jira_client.get_jira_label_pfx project_name file_name project_branch w.id))) ++ ")" := by
  simp only [list_snyk_vulnerabilities, list_snyk_foldl_eq]
  have hmm : (v :: vs).map (fun w => query_term (build_jira_snyk_id
      jira_client.get_jira_label_pfx project_name file_name project_branch w.id)) =
    ((v :: vs).map (fun w => build_jira_snyk_id
      jira_client.get_jira_label_pfx project_name file_name project_branch w.id)).map query_term := by
    rw [List.map_map]
    rfl
  have hmm2 : (v :: vs).map (fun w => spacedTerm (build_jira_snyk_id
      jira_client.get_jira_label_pfx project_name file_name project_branch w.id)) =
    ((v :: vs).map (fun w => build_jira_snyk_id
      jira_client.get_jira_label_pfx project_name file_name project_branch w.id)).map spacedTerm := by
    rw [List.map_map]
    rfl
  rw [hmm, hmm2, List.map_cons, join_terms_eq_orJoin]
  rw [← String.append_assoc, pyDropLast_OR]

/-- The jira client configuration used by the concrete examples. -/
def clientP : JiraClient :=
  { jira_label_pfx := "p:", jira_project_id := "PROJ",
    jira_component_list := ["comp"], dry_run := false }

/-- A sample raw vulnerability with snyk id `A`. -/
def rawA : RawVulnerability :=
  { id := "A",
    issueData := { title := "tA", url := "uA", severity := "high",
                   cvssScore := 7.5, identifiers := [("CVE", ["CVE-2024-0001"])] },
    pkgName := "pkg", pkgVersions := ["1.0"], fixInfo := { fixedIn := ["1.1"] } }

/-- A sample raw vulnerability with snyk id `B`. -/
def rawB : RawVulnerability :=
  { id := "B",
    issueData := { title := "tB", url := "uB", severity := "critical",
                   cvssScore := 9.8, identifiers := [] },
    pkgName := "pkg", pkgVersions := ["2.0"], fixInfo := { fixedIn := ["2.1"] } }

/-- C6 (counterexample): with two findings, label prefix `p:` and
project `PROJ`, the built query uses the field name `labels` and extra
spaces inside the parentheses, so it is not the claimed exact string
`project=PROJ AND (label="id1" OR label="id2")`. -/
theorem query_shape_counterexample :
    (list_snyk_vulnerabilities [rawA, rawB] "b" "n" "f" clientP).2 =
      "project=PROJ AND ( labels=\"p:n:f:b:A\" OR labels=\"p:n:f:b:B\" )" ∧
    (list_snyk_vulnerabilities [rawA, rawB] "b" "n" "f" clientP).2 ≠
      "project=PROJ AND (label=\"p:n:f:b:A\" OR label=\"p:n:f:b:B\")" := by
  constructor
  · decide
  · decide

/-- C7 (amended): on the empty finding list the builder does not signal
anything; it returns the empty findings list together with the string
`project=<pid> AND)` — stripping the last two characters removes the
opening parenthesis and its leading space, leaving a dangling `AND`. -/
theorem list_snyk_vulnerabilities_empty
    (project_branch project_name file_name : String) (jira_client : JiraClient) :
    list_snyk_vulnerabilities [] project_branch project_name file_name jira_client =
      ([], "project=" ++ jira_client.get_project_id ++ " AND)") := by
  simp only [list_snyk_vulnerabilities, List.foldl_nil]
  refine Prod.ext rfl ?_
  show pyDropLast ("project=" ++ jira_client.get_project_id ++ " AND (") 2 ++ ")" =
    "project=" ++ jira_client.get_project_id ++ " AND)"
  have h : ("project=" ++ jira_client.get_project_id ++ " AND (") =
      ("project=" ++ jira_client.get_project_id ++ " AND") ++ " (" := by
    apply str_ext
    simp [str_data_append]
  rw [h]
  have hl : (" (" : String).data.length = 2 := by decide
  have h2 := pyDropLast_append ("project=" ++ jira_client.get_project_id ++ " AND") " ("
  rw [hl] at h2
  rw [h2]
  apply str_ext
  simp [str_data_append]

/-- C7 (counterexample): on zero findings the builder emits the
malformed string `project=PROJ AND)` — a dangling `AND` — instead of
signalling that no query is needed. -/
theorem empty_query_counterexample :
    (list_snyk_vulnerabilities [] "b" "n" "f" clientP).2 = "project=PROJ AND)" ∧
    (" AND)" : String).data.isSuffixOf
      (list_snyk_vulnerabilities [] "b" "n" "f" clientP).2.data = true := by
  constructor
  · decide
  · decide

/-- A sample raw vulnerability whose severity is `low`. -/
def rawLow : RawVulnerability :=
  { id := "L",
    issueData := { title := "tL", url := "uL", severity := "low",
                   cvssScore := 2.5, identifiers := [] },
    pkgName := "pkg", pkgVersions := [], fixInfo := { fixedIn := [] } }

/-- C4: the orchestrator applies no severity filter.  A finding of
severity `low` — not in `VULNERABILITY_SEVERITIES` — still reaches the
normalized finding list produced by `list_snyk_vulnerabilities`. -/
theorem low_severity_not_filtered :
    ("low" ∉ VULNERABILITY_SEVERITIES) ∧
    (list_snyk_vulnerabilities [rawLow] "b" "n" "f" clientP).1.map
      VulnerabilityData.get_severity = ["low"] := by
  constructor
  · decide
  · decide

lemma colon_split {x : List Char} : ∀ {y : List Char} {r s : List Char},
    ':' ∉ x → ':' ∉ y → x ++ ':' :: r = y ++ ':' :: s → x = y ∧ r = s := by
  induction x with
  | nil =>
    intro y r s _ hy h
    cases y with
    | nil => simpa using h
    | cons d ds =>
      simp at h
      obtain ⟨hd, _⟩ := h
      subst hd
      exact absurd (List.mem_cons_self _ _) hy
  | cons c cs ih =>
    intro y r s hx hy h
    cases y with
    | nil =>
      simp at h
      obtain ⟨hc, _⟩ := h
      subst hc
      exact absurd (List.mem_cons_self _ _) hx
    | cons d ds =>
      simp at h
      obtain ⟨hcd, h2⟩ := h
      subst hcd
      have hcs : ':' ∉ cs := fun hm => hx (List.mem_cons_of_mem c hm)
      have hds : ':' ∉ ds := fun hm => hy (List.mem_cons_of_mem c hm)
      obtain ⟨he, hr⟩ := ih hcs hds h2
      exact ⟨by rw [he], hr⟩

/-- C8 (counterexample): with components that may contain the `:`
delimiter, two distinct `(artifactName, filePath, branch, scannerId)`
tuples build the same tracking identity. -/
theorem build_jira_snyk_id_collision :
    build_jira_snyk_id "p:" "a" "b:c" "d" "e" = build_jira_snyk_id "p:" "a:b" "c" "d" "e" ∧
    (("a", "b:c", "d", "e") : String × String × String × String) ≠ ("a:b", "c", "d", "e") := by
  constructor
  · decide
  · decide

/-- C8 (amended): the tracking identity is injective in
`(artifactName, filePath, branch, scannerId)` provided the artifact
name, file path and branch contain no `:` delimiter character (the
scanner id, being the last component, is unconstrained). -/
theorem build_jira_snyk_id_injective
    (pfx n1 f1 b1 i1 n2 f2 b2 i2 : String)
    (hn1 : ':' ∉ n1.data) (hf1 : ':' ∉ f1.data) (hb1 : ':' ∉ b1.data)
    (hn2 : ':' ∉ n2.data) (hf2 : ':' ∉ f2.data) (hb2 : ':' ∉ b2.data)
    (heq : build_jira_snyk_id pfx n1 f1 b1 i1 = build_jira_snyk_id pfx n2 f2 b2 i2) :
    n1 = n2 ∧ f1 = f2 ∧ b1 = b2 ∧ i1 = i2 := by
  have hd := congrArg String.data heq
  simp only [build_jira_snyk_id, str_data_append, List.append_assoc,
    List.singleton_append, List.cons_append] at hd
  have hd2 := List.append_cancel_left hd
  obtain ⟨e1, r1⟩ := colon_split hn1 hn2 hd2
  obtain ⟨e2, r2⟩ := colon_split hf1 hf2 r1
  obtain ⟨e3, r3⟩ := colon_split hb1 hb2 r2
  exact ⟨str_ext e1, str_ext e2, str_ext e3, str_ext r3⟩

/-- Witness for C8 (amended): applied at concrete colon-free
components. -/
theorem build_jira_snyk_id_injective_witness :
    ((':' ∉ ("n" : String).data) ∧ (':' ∉ ("f" : String).data) ∧
      (':' ∉ ("b" : String).data)) ∧
    (("n" : String) = "n" ∧ ("f" : String) = "f" ∧ ("b" : String) = "b" ∧
      ("i" : String) = "i") :=
  ⟨by decide,
    build_jira_snyk_id_injective "p:" "n" "f" "b" "i" "n" "f" "b" "i"
      (by decide) (by decide) (by decide) (by decide) (by decide) (by decide) rfl⟩

/-- `parse_project_name` (lines 433-434): part of the combined name
before the first colon, with a trailing `(<branch>)` suffix removed. -/
def parse_project_name (project_name branch_name : String) : String :=
  pyRemoveSuffix (pyPartitionBeforeColon project_name) ("(" ++ branch_name ++ ")")

/-- `parse_file_name` (lines 437-438): part of the combined name after
the first colon. -/
def parse_file_name (project_name : String) : String :=
  pyPartitionAfterColon project_name

/-- `exclude_file` (lines 441-445): true when any pattern matches the
file name.  The `re.search` engine is an external collaborator, passed
in as `re_search` (pattern first, subject second, as in Python). -/
def exclude_file (re_search : String → String → Bool)
    (file_name : String) (excluded_files : List String) : Bool :=
  excluded_files.any (fun excluded_f => re_search excluded_f file_name)

/-- `JiraClient.list_existing_jira_issues` (lines 147-164): performs one
search call and returns the page together with the hard-coded `False`
for "any more results" (this is the literal source behaviour). -/
def JiraClient.list_existing_jira_issues (_jira_client : JiraClient)
    (search : String → Nat → Nat → List JiraIssue)
    (jira_query : String) (start_at max_results : Nat) : List JiraIssue × Bool :=
  (search jira_query start_at max_results, false)

/-- Observable trace of one `process_vulnerabilities` run: the offsets
requested from the tracker, every issue consulted, and the argument of
each `create_jira_issues` call. -/
structure RunTrace where
  requested_offsets : List Nat
  fetched_issues : List JiraIssue
  create_calls : List (List VulnerabilityData)

/-- The `while load_more` loop of `process_vulnerabilities`
(lines 481-500), with explicit fuel for the unbounded `while`.  Each
iteration fetches one page, reconciles, and (when something is new)
records the `create_jira_issues` call and advances `start_at` —
the advance sits inside the `if`, as in the source. -/
def process_vulnerabilities_loop (search : String → Nat → Nat → List JiraIssue)
    (jira_client : JiraClient) (vulnerabilities_to_compare_list : List VulnerabilityData)
    (jira_query : String) (max_results : Nat) :
    Nat → Bool → Nat → RunTrace → RunTrace
  | 0, _, _, trace => trace
  | fuel + 1, load_more, start_at, trace =>
    if load_more then
      let step := jira_client.list_existing_jira_issues search jira_query start_at max_results
      let vulnerabilities_to_create_list :=
        compare_jira_snyk vulnerabilities_to_compare_list step.1 jira_client.get_jira_label_pfx
      let trace2 : RunTrace :=
        { requested_offsets := trace.requested_offsets ++ [start_at],
          fetched_issues := trace.fetched_issues ++ step.1,
          create_calls :=
            if vulnerabilities_to_create_list.isEmpty then trace.create_calls
            else trace.create_calls ++ [vulnerabilities_to_create_list] }
      let start_at2 := if vulnerabilities_to_create_list.isEmpty then start_at
        else start_at + max_results
      process_vulnerabilities_loop search jira_client vulnerabilities_to_compare_list
        jira_query max_results fuel step.2 start_at2 trace2
    else trace

/-- `process_vulnerabilities` (lines 474-500): `load_more = True`,
`start_at = 0`, `max_results = 50`, then the loop.  The snyk project id,
org slug and epic id are forwarded to `create_jira_issues` in the
source; the trace records those calls by their vulnerability-list
argument. -/
def process_vulnerabilities (fuel : Nat) (search : String → Nat → Nat → List JiraIssue)
    (jira_client : JiraClient) (vulnerabilities_to_compare_list : List VulnerabilityData)
    (jira_query : String)
    (_project_id _snyk_org_slug _jira_epic_id : String) : RunTrace :=
  process_vulnerabilities_loop search jira_client vulnerabilities_to_compare_list
    jira_query 50 fuel true 0 ⟨[], [], []⟩

lemma process_vulnerabilities_loop_stop (search : String → Nat → Nat → List JiraIssue)
    (jira_client : JiraClient) (vulns : List VulnerabilityData) (jira_query : String)
    (max_results fuel start_at : Nat) (trace : RunTrace) :
    process_vulnerabilities_loop search jira_client vulns jira_query max_results
      fuel false start_at trace = trace := by
  cases fuel <;> simp [process_vulnerabilities_loop]

/-- C5: the paginator consults exactly one page.  Because
`list_existing_jira_issues` always reports `False` for "more results",
the loop — for every positive fuel, every page source and every query —
requests only offset 0 and aggregates only that first page, never a
second one. -/
theorem process_vulnerabilities_single_page (fuel : Nat)
    (search : String → Nat → Nat → List JiraIssue) (jira_client : JiraClient)
    (vulns : List VulnerabilityData) (jira_query pid slug epic : String) :
    (process_vulnerabilities (fuel + 1) search jira_client vulns jira_query
      pid slug epic).requested_offsets = [0] ∧
    (process_vulnerabilities (fuel + 1) search jira_client vulns jira_query
      pid slug epic).fetched_issues = search jira_query 0 50 := by
  unfold process_vulnerabilities
  simp only [process_vulnerabilities_loop, JiraClient.list_existing_jira_issues, if_true]
  rw [process_vulnerabilities_loop_stop]
  constructor <;> simp

/-- The `{"name": component}` dict of `get_component_dict_list`
(lines 97-98). -/
structure ComponentDict where
  name : String

def JiraClient.get_component_dict_list (_jira_client : JiraClient)
    (component : String) : ComponentDict :=
  { name := component }

/-- `calculate_due_date` (lines 377-384): 7 days for `critical`,
otherwise 30, added to today.  The clock is the explicit `today`
parameter (a day count); the `YYYY-MM-DD` rendering of the resulting
date is abstracted to that count. -/
def VulnerabilityData.calculate_due_date (v : VulnerabilityData) (today : Nat) : Nat :=
  let number_of_days := if v.get_severity == "critical" then 7 else 30
  today + number_of_days

/-- Python f-string interpolation of an optional list (`None` or the
list repr). -/
def pyOptListRepr : Option (List String) → String
  | none => "None"
  | some l => pyListRepr l

/-- `get_jira_summary` (lines 368-375). -/
def VulnerabilityData.get_jira_summary (v : VulnerabilityData) : String :=
  let cve := v.get_identifiers.lookup "CVE"
  let summary := "Snyk - " ++ (match cve with
    | some (c :: _) => "[" ++ c ++ "] - "
    | _ => "")
  summary ++ "[" ++ v.get_severity ++ "] - [" ++ v.get_project_branch ++ "] - " ++
    v.get_project_name ++ " - " ++ v.get_file_path ++ " - " ++ v.get_title

/-- `get_jira_description` (lines 345-366). -/
def VulnerabilityData.get_jira_description (v : VulnerabilityData)
    (snyk_org_slug snyk_project_id : String) : String :=
  let cve := v.get_identifiers.lookup "CVE"
  "Found vulnerability in *" ++ v.get_project_name ++ "* project, in file *" ++
    v.get_file_path ++ "*, in branch *" ++ v.get_project_branch ++ "*. \n\n" ++
    "Severity: " ++ v.get_severity ++ ". \n\n" ++
    "Package name: " ++ v.get_package_name ++ " \n\n" ++
    "Package version: " ++ pyListRepr v.get_package_version ++ " \n\n" ++
    "Fixed in: " ++ pyListRepr v.get_fixed_in ++ " \n\n" ++
    "Vulnerability URL: " ++ v.get_url ++ ". \n\n" ++
    "CSSV score: " ++ toString v.get_cvss_score ++ ". \n\n" ++
    "CVE Identifier: " ++ pyOptListRepr cve ++ ". \n\n" ++
    "More info can be found in https://app.snyk.io/org/" ++ snyk_org_slug ++
    "/project/" ++ snyk_project_id ++ "#issue-" ++ v.get_id ++ ". \n"

/-- One jira create request, as assembled at lines 117-125. -/
structure CreateRequest where
  project : String
  summary : String
  description : String
  components : List ComponentDict
  duedate : Nat
  issuetype : String
  labels : List String

/-- The externally observable actions of `create_jira_issues`: the
batch create call, the add-to-epic call, and the dry-run print. -/
inductive JiraEffect where
  | createBatch (issues : List CreateRequest)
  | addToEpic (jira_epic_id : String) (issue_keys : List String)
  | dryRunPrint (count : Nat)

/-- `create_jira_issues` (lines 100-145), reified as the list of
effects it performs.  `create_resp` models the tracker's response to
the batch create (the keys of each created issue, iterated at
lines 133-135). -/
def JiraClient.create_jira_issues (jira_client : JiraClient) (today : Nat)
    (create_resp : List CreateRequest → List (List String))
    (vulnerabilities_to_create : List VulnerabilityData)
    (jira_project_id _snyk_project_id _snyk_org_slug jira_epic_id : String) : List JiraEffect :=
  let jira_issues_to_create : List CreateRequest :=
    vulnerabilities_to_create.map (fun vulnerability =>
      { project := jira_project_id,
        summary := vulnerability.get_jira_summary,
        description := vulnerability.get_jira_description _snyk_org_slug _snyk_project_id,
        components := vulnerability.get_component_list.map
          jira_client.get_component_dict_list,
        duedate := vulnerability.calculate_due_date today,
        issuetype := "Bug",
        labels := [vulnerability.get_jira_snyk_id] })
  if !jira_client.is_dry_run then
    let created_jira_issues := create_resp jira_issues_to_create
    let issue_keys := created_jira_issues.foldl (fun keys issue => keys ++ issue) []
    [JiraEffect.createBatch jira_issues_to_create,
     JiraEffect.addToEpic jira_epic_id issue_keys]
  else
    [JiraEffect.dryRunPrint jira_issues_to_create.length]

/-- C9: with dry-run enabled, `create_jira_issues` performs no create
and no link-to-epic call, and the reported would-be-created count
equals the number of findings passed in. -/
theorem create_jira_issues_dry_run (jira_client : JiraClient) (today : Nat)
    (create_resp : List CreateRequest → List (List String))
    (vulns : List VulnerabilityData)
    (jira_project_id snyk_project_id snyk_org_slug jira_epic_id : String)
    (h : jira_client.dry_run = true) :
    jira_client.create_jira_issues today create_resp vulns
        jira_project_id snyk_project_id snyk_org_slug jira_epic_id
      = [JiraEffect.dryRunPrint vulns.length] ∧
    (∀ reqs, JiraEffect.createBatch reqs ∉
      jira_client.create_jira_issues today create_resp vulns
        jira_project_id snyk_project_id snyk_org_slug jira_epic_id) ∧
    (∀ epic keys, JiraEffect.addToEpic epic keys ∉
      jira_client.create_jira_issues today create_resp vulns
        jira_project_id snyk_project_id snyk_org_slug jira_epic_id) := by
  have heq : jira_client.create_jira_issues today create_resp vulns
      jira_project_id snyk_project_id snyk_org_slug jira_epic_id
      = [JiraEffect.dryRunPrint vulns.length] := by
    simp [JiraClient.create_jira_issues, JiraClient.is_dry_run, h]
  refine ⟨heq, ?_, ?_⟩
  · intro reqs
    rw [heq]
    simp
  · intro epic keys
    rw [heq]
    simp

/-- A jira client configured with the dry-run flag set. -/
def clientDry : JiraClient :=
  { jira_label_pfx := "p:", jira_project_id := "PROJ",
    jira_component_list := ["comp"], dry_run := true }

/-- Witness for C9: one finding under dry run yields exactly the
"1 issue would be created" report. -/
theorem create_jira_issues_dry_run_witness :
    clientDry.dry_run = true ∧
    clientDry.create_jira_issues 0 (fun _ => []) [vdA] "PROJ" "SP" "org" "EPIC"
      = [JiraEffect.dryRunPrint 1] :=
  ⟨rfl, (create_jira_issues_dry_run clientDry 0 (fun _ => []) [vdA]
    "PROJ" "SP" "org" "EPIC" rfl).1⟩

/-- A snyk project as read by `process_projects`: `project.name`,
`project.branch`, `project.id`, `project.organization.slug`, and the
issue list obtained from `project.issueset_aggregated.all().issues`
(flattened into one field). -/
structure SnykProject where
  name : String
  branch : String
  id : String
  organization_slug : String
  issues : List RawVulnerability

/-- Observable outcome of `process_projects` for one project: whether
the "skipping file ..." message was logged, and the downstream run
trace when processing happened. -/
structure ProjectTrace where
  skip_logged : Bool
  run : Option RunTrace

/-- `process_projects` (lines 448-472).  Faithful to the source: when
the exclusion list matches, the skip message is logged but control
falls through — there is no `return` — so the project is still queried,
reconciled and sent to issue creation. -/
def process_projects (re_search : String → String → Bool) (fuel : Nat)
    (search : String → Nat → Nat → List JiraIssue)
    (jira_client : JiraClient) (project : SnykProject)
    (exclude_files : List (String × List String)) (jira_epic_id : String) : ProjectTrace :=
  let project_name := parse_project_name project.name project.branch
  let file_name := parse_file_name project.name
  let excluded_files := exclude_files.lookup project_name
  let skip_logged := match excluded_files with
    | some fs => !fs.isEmpty && exclude_file re_search file_name fs
    | none => false
  if !project.issues.isEmpty then
    let r := list_snyk_vulnerabilities project.issues project.branch project_name
      file_name jira_client
    if !r.1.isEmpty then
      { skip_logged := skip_logged,
        run := some (process_vulnerabilities fuel search jira_client r.1 r.2
          project.id project.organization_slug jira_epic_id) }
    else
      { skip_logged := skip_logged, run := none }
  else
    { skip_logged := skip_logged, run := none }

/-- A regex engine instance for the concrete example: a pattern matches
when it equals the subject (as `re.search` does for a literal pattern
equal to the whole file name). -/
def mEq : String → String → Bool := fun pat s => pat == s

/-- A project whose parsed file name `Dockerfile` is excluded by
`excludeMapX` and which carries one high-severity finding. -/
def projX : SnykProject :=
  { name := "org/repo(main):Dockerfile", branch := "main", id := "SP1",
    organization_slug := "org", issues := [rawA] }

/-- Exclusion mapping: artifact `org/repo` excludes `Dockerfile`. -/
def excludeMapX : List (String × List String) := [("org/repo", ["Dockerfile"])]

/-- A page source returning no tracked issues. -/
def searchNone : String → Nat → Nat → List JiraIssue := fun _ _ _ => []

/-- C3: the exclusion filter does not suppress findings.  For a project
whose file is matched by its exclusion rule, `process_projects` logs
the skip message yet still queries the tracker (offset 0 requested) and
still forwards the excluded file's finding to issue creation. -/
theorem exclusion_not_enforced :
    (process_projects mEq 3 searchNone clientP projX excludeMapX "EPIC-1").skip_logged = true ∧
    ((process_projects mEq 3 searchNone clientP projX excludeMapX "EPIC-1").run.map
      (fun t => (t.requested_offsets,
        t.create_calls.map (fun l => l.map VulnerabilityData.get_jira_snyk_id))))
      = some ([0], [["p:org/repo:Dockerfile:main:A"]]) := by
  constructor
  · decide
  · decide
